import Mathlib

/-
  Verification development for the HidenCloud auto-renewal script
  (src/main.py).  The script's decision logic is shallowly embedded:
  pure helpers become Lean functions; the browser-driven control flow
  becomes functions over an abstract environment `Env` recording what
  the page would show at each observation point, threading the
  `RunResults` accumulator and an event trace.
-/

namespace HC

/-- Python truthiness of an optional string (`os.getenv` result):
`None` and the empty string are falsy, everything else truthy. -/
def pyTruthy : Option String → Bool
  | none => false
  | some s => !s.isEmpty

/-- Split a character list at every separator character, keeping empty
fields (the semantics of Python `str.split(sep)` at character level);
`acc` is the current field, accumulated in reverse. -/
def splitCharsAux (p : Char → Bool) : List Char → List Char → List (List Char)
  | [], acc => [acc.reverse]
  | c :: cs, acc =>
      if p c then acc.reverse :: splitCharsAux p cs []
      else splitCharsAux p cs (c :: acc)

/-- Python `str.split()` with no argument: split on whitespace, dropping
empty fields (which also discards leading/trailing whitespace, so a
preceding `.strip()` is a no-op). -/
def pySplitWs (s : String) : List String :=
  ((splitCharsAux Char.isWhitespace s.data []).filter
    (fun t => !t.isEmpty)).map String.mk

/-- Python `str.split(sep)` for a one-character separator: split at every
occurrence, keeping empty fields. -/
def pySplitOn (s : String) (sep : Char) : List String :=
  (splitCharsAux (fun c => c = sep) s.data []).map String.mk

/-- Python `str.zfill(w)`: left-pad with `'0'` to length `w`; a leading
sign character stays in front of the padding. -/
def zfill (s : String) (w : Nat) : String :=
  if w ≤ s.length then s
  else
    match s.data with
    | c :: rest =>
        if c = '+' ∨ c = '-' then
          String.mk (c :: List.replicate (w - s.length) '0' ++ rest)
        else
          String.mk (List.replicate (w - s.length) '0' ++ s.data)
    | [] => String.mk (List.replicate w '0')

/-- The `month_map` dictionary of `_convert_date_format`. -/
def month_map : String → Option String
  | "Jan" => some "01"
  | "Feb" => some "02"
  | "Mar" => some "03"
  | "Apr" => some "04"
  | "May" => some "05"
  | "Jun" => some "06"
  | "Jul" => some "07"
  | "Aug" => some "08"
  | "Sep" => some "09"
  | "Oct" => some "10"
  | "Nov" => some "11"
  | "Dec" => some "12"
  | _ => none

/-- Python `month_map.get(m, '00')`. -/
def monthNum (m : String) : String := (month_map m).getD "00"

/-- Embedding of `HidenCloudLogin._convert_date_format`:
`date_str.strip().split()`; with exactly three fields the result is
`year-month-day` with the day `zfill(2)`-padded and the month looked up
in `month_map` with default `"00"`; otherwise the input is returned
unchanged.  (The function body cannot raise, so the `except` fallback
returning `date_str` is dead; the function is pure and total.) -/
def convert_date_format (date_str : String) : String :=
  match pySplitWs date_str with
  | [d, m, y] => y ++ "-" ++ monthNum m ++ "-" ++ zfill d 2
  | _ => date_str

/-- Case-insensitively match the literal `lit` at the head of `cs`,
returning the remainder on success (models `re.IGNORECASE` literals). -/
def matchCI : List Char → List Char → Option (List Char)
  | [], cs => some cs
  | _ :: _, [] => none
  | l :: ls, c :: cs => if c.toLower = l.toLower then matchCI ls cs else none

/-- Take the maximal leading run of ASCII digits (the greedy `\d+`). -/
def takeDigits : List Char → List Char × List Char
  | [] => ([], [])
  | c :: cs =>
      if c.isDigit then
        let p := takeDigits cs
        (c :: p.1, p.2)
      else ([], c :: cs)

/-- Numeric value of a digit string (Python `int`). -/
def digitsToNat (ds : List Char) : Nat :=
  ds.foldl (fun n c => n * 10 + (c.toNat - 48)) 0

/-- Try to match the regex `expires in (\d+) days?` (IGNORECASE) at the
head of `cs`, returning the captured number.  The greedy `\d+` is the
maximal digit run (no backtracking can help: a shorter run would leave a
digit where the pattern requires a space), and the trailing `s?` does not
affect the capture. -/
def matchExpiresAt (cs : List Char) : Option Nat :=
  match matchCI "expires in ".data cs with
  | none => none
  | some rest =>
      let p := takeDigits rest
      if p.1.isEmpty then none
      else
        match matchCI " day".data p.2 with
        | none => none
        | some _ => some (digitsToNat p.1)

/-- `re.search`: the leftmost position at which the pattern matches. -/
def searchExpires : List Char → Option Nat
  | [] => none
  | c :: cs =>
      match matchExpiresAt (c :: cs) with
      | some n => some n
      | none => searchExpires cs

/-- Embedding of `HidenCloudLogin._extract_remaining_days`:
`re.search(r'expires in (\d+) days?', message, re.IGNORECASE)`,
returning the captured integer or `None`. -/
def extract_remaining_days (message : String) : Option Nat :=
  searchExpires message.data

/-- Embedding of `HidenCloudLogin._load_credentials`, as a function of
the two environment variables.  The cookie value is stored as read.
When `HIDENCLOUD_ACCOUNT` is truthy, `account_info.split(':')` is
unpacked into `(email, password)`; the unpacking succeeds only when the
split yields exactly two fields, and on `ValueError` both are set to
`None` (logged and discarded). -/
def load_credentials (cookie_env account_env : Option String) :
    Option String × Option String × Option String :=
  let ep :=
    if pyTruthy account_env then
      match account_env with
      | some a =>
          match pySplitOn a ':' with
          | [e, p] => (some e, some p)
          | _ => ((none : Option String), (none : Option String))
      | none => (none, none)
    else (none, none)
  (cookie_env, ep.1, ep.2)

/-- Embedding of `HidenCloudLogin._validate_config`: returns `true` when
the configuration is acceptable, `false` when the constructor raises
`ValueError` (no cookie and no truthy email/password pair). -/
def validate_config (cookie email password : Option String) : Bool :=
  pyTruthy cookie || (pyTruthy email && pyTruthy password)

/-- The configuration held by a `HidenCloudLogin` instance: credentials
as loaded, plus the target server URL and the fixed login URL. -/
structure Config where
  cookie_value : Option String
  email : Option String
  password : Option String
  server_url : String
  login_url : String
  deriving DecidableEq

/-- The `run_results` accumulator (the `server_id` label and the
wall-clock `start_time`, both set once in `__init__` and never touched
afterwards, are omitted). -/
structure RunResults where
  renewal_status : String
  remaining_days : Option Nat
  old_due_date : Option String
  new_due_date : Option String
  deriving DecidableEq

/-- The accumulator as initialized in `__init__`. -/
def initResults : RunResults :=
  { renewal_status := "Unknown", remaining_days := none
    old_due_date := none, new_due_date := none }

/-- Observable actions of a run: browser interactions, diagnostic
screenshots (by tag) and assignments to `run_results['renewal_status']`.
The `cookieAttempt` / `passwordAttempt` markers mirror the log lines
emitted when a strategy proceeds past its credential guard. -/
inductive Event
  | navigate (url : String)
  | setCookie
  | clearCookies
  | cookieAttempt
  | passwordAttempt
  | fillLoginForm
  | challengeClick
  | challengeVerified
  | submitLogin
  | clickRenew
  | clickCreateInvoice
  | clickPay
  | screenshot (tag : String)
  | setStatus (s : String)
  deriving DecidableEq

/-- Outcome of the Cloudflare Turnstile interaction: checkbox seen,
clicked and token observed; clicked but token wait timed out; or the
checkbox never became visible (absent or timeout). -/
inductive ChallengeOutcome
  | verified
  | clickedNotVerified
  | notVisible
  deriving DecidableEq

/-- Outcome of `_detect_payment_success` as seen by its caller: the two
success texts detected; not detected within the bounded waits; or the
detection step itself raised. -/
inductive DetectOutcome
  | detected
  | notDetected
  | raised
  deriving DecidableEq

/-- Abstract behaviour of the browser/page during one run: each field is
the outcome the automation surface would report at the corresponding
observation point of `main.py`. -/
structure Env where
  set_cookies_ok : Bool
  cookie_goto_ok : Bool
  on_login_page_after_cookie : Bool
  login_goto_ok : Bool
  fill_ok : Bool
  challenge : ChallengeOutcome
  submit_ok : Bool
  dashboard_redirect_ok : Bool
  on_login_page_after_password : Bool
  password_target_goto_ok : Bool
  due_text_before : Option String
  renew_visible : Bool
  renew_enabled : Bool
  restriction_title_visible : Bool
  restriction_message_visible : Bool
  restriction_text : Option String
  confirmation_title_visible : Bool
  confirmation_message_visible : Bool
  create_invoice_visible : Bool
  invoice_url_ok : Bool
  invoice_success_visible : Bool
  invoice_text_visible : Bool
  pay_visible : Bool
  pay_redirect_ok : Bool
  detect : DetectOutcome
  payment_target_goto_ok : Bool
  due_text_after : Option String
  deriving DecidableEq

/-- The two call sites of `_record_due_date`. -/
inductive Stage
  | before
  | afterRenewal
  deriving DecidableEq

/-- Embedding of `HidenCloudLogin._record_due_date`: `raw` is the
(stripped) due-date text found on the page, or `none` when the anchor or
date token is missing or its retrieval raises; every failure is caught
internally, leaving the accumulator untouched. -/
def record_due_date (raw : Option String) (stage : Stage) (r : RunResults) : RunResults :=
  match raw with
  | none => r
  | some t =>
      match stage with
      | Stage.before => { r with old_due_date := some (convert_date_format t) }
      | Stage.afterRenewal => { r with new_due_date := some (convert_date_format t) }

/-- Embedding of `HidenCloudLogin._check_renewal_restriction`: when both
the restriction title and the body paragraph are visible, the remaining
days are extracted from the body text (Python `if remaining_days:` keeps
the value only when it is a nonzero integer — `None` and `0` are both
falsy), `renewal_status` is set to `'Unexpired'`, a screenshot is taken
and `True` is returned; otherwise nothing changes and `False` is
returned.  A failure to retrieve the body text (`restriction_text =
none`) is caught and only skips the extraction. -/
def check_renewal_restriction (env : Env) (r : RunResults) :
    RunResults × List Event × Bool :=
  if env.restriction_title_visible && env.restriction_message_visible then
    let r1 :=
      match env.restriction_text with
      | some msg =>
          match extract_remaining_days msg with
          | some d => if d ≠ 0 then { r with remaining_days := some d } else r
          | none => r
      | none => r
    ({ r1 with renewal_status := "Unexpired" },
     [Event.setStatus "Unexpired", Event.screenshot "renewal_restricted"], true)
  else (r, [], false)

/-- Embedding of `HidenCloudLogin._detect_payment_success`: `true` only
when both success texts became visible within their bounded waits. -/
def detect_payment_success (env : Env) : Bool :=
  match env.detect with
  | DetectOutcome.detected => true
  | _ => false

/-- Embedding of `HidenCloudLogin._check_payment_result`: when the
bounded `wait_for_url("**/dashboard")` succeeds, a screenshot records
the detection outcome (detected / inferred / detection raised), then
`renewal_status` is unconditionally set to `'Success'`, the page is
navigated back to the target URL and the new due date recorded (a goto
failure is caught by the outer `except`, which only screenshots).  When
the redirect wait expires, the `except` path screenshots and leaves the
accumulator untouched. -/
def check_payment_result (cfg : Config) (env : Env) (r : RunResults) :
    RunResults × List Event :=
  if env.pay_redirect_ok then
    let detTrace :=
      if env.detect = DetectOutcome.raised then
        [Event.screenshot "payment_detection_failed"]
      else if detect_payment_success env then
        [Event.screenshot "renewal_payment_success"]
      else [Event.screenshot "payment_inferred_success"]
    let r1 := { r with renewal_status := "Success" }
    if env.payment_target_goto_ok then
      (record_due_date env.due_text_after Stage.afterRenewal r1,
       detTrace ++ [Event.setStatus "Success", Event.navigate cfg.server_url])
    else
      (r1, detTrace ++ [Event.setStatus "Success", Event.navigate cfg.server_url,
            Event.screenshot "payment_result_unknown"])
  else (r, [Event.screenshot "payment_result_unknown"])

/-- Embedding of `HidenCloudLogin._handle_invoice_and_payment`: after the
fixed wait, the invoice page is confirmed only when the URL pattern and
all three page signals hold; then Pay is clicked and the payment result
checked.  Otherwise the accumulator is untouched and a diagnostic
screenshot is taken. -/
def handle_invoice_and_payment (cfg : Config) (env : Env) (r : RunResults) :
    RunResults × List Event :=
  if env.invoice_url_ok && env.invoice_success_visible &&
     env.invoice_text_visible && env.pay_visible then
    let p := check_payment_result cfg env r
    (p.1, Event.clickPay :: p.2)
  else (r, [Event.screenshot "invoice_page_error"])

/-- Embedding of `HidenCloudLogin._check_renewal_confirmation`: when the
confirmation title and body are visible, Create Invoice is clicked (if
visible) and the invoice/payment flow runs; either way `True` is
returned.  Otherwise `False`. -/
def check_renewal_confirmation (cfg : Config) (env : Env) (r : RunResults) :
    RunResults × List Event × Bool :=
  if env.confirmation_title_visible && env.confirmation_message_visible then
    if env.create_invoice_visible then
      let p := handle_invoice_and_payment cfg env r
      (p.1, Event.clickCreateInvoice :: p.2, true)
    else (r, [Event.screenshot "renewal_dialog_error"], true)
  else (r, [], false)

/-- Embedding of `HidenCloudLogin._handle_renewal_dialog`: the
restriction check runs first and, when it matches, the confirmation
check never runs; when neither matches, an `unexpected_dialog`
screenshot is taken. -/
def handle_renewal_dialog (cfg : Config) (env : Env) (r : RunResults) :
    RunResults × List Event :=
  let c := check_renewal_restriction env r
  if c.2.2 then (c.1, c.2.1)
  else
    let k := check_renewal_confirmation cfg env c.1
    if k.2.2 then (k.1, c.2.1 ++ k.2.1)
    else (k.1, c.2.1 ++ k.2.1 ++ [Event.screenshot "unexpected_dialog"])

/-- Embedding of `HidenCloudLogin._perform_renewal`: the pre-renewal due
date is recorded first; then the Renew button is awaited (a visibility
timeout raises into the `except`, which screenshots `renewal_failed`),
and when enabled it is clicked and the dialog handled; a visible but
disabled button only logs. -/
def perform_renewal (cfg : Config) (env : Env) (r : RunResults) :
    RunResults × List Event :=
  let r0 := record_due_date env.due_text_before Stage.before r
  if env.renew_visible then
    if env.renew_enabled then
      let p := handle_renewal_dialog cfg env r0
      (p.1, Event.clickRenew :: p.2)
    else (r0, [])
  else (r0, [Event.screenshot "renewal_failed"])

/-- Embedding of `HidenCloudLogin._handle_cloudflare_verification`: every
outcome is caught internally, so the step always returns normally;
only the emitted trace differs. -/
def handle_cloudflare_verification (env : Env) : List Event :=
  match env.challenge with
  | ChallengeOutcome.verified => [Event.challengeClick, Event.challengeVerified]
  | ChallengeOutcome.clickedNotVerified => [Event.challengeClick]
  | ChallengeOutcome.notVisible => []

/-- Embedding of `HidenCloudLogin._try_cookie_login`: skipped when no
cookie value is present; otherwise the cookie is injected, the target
page visited, and a landing on the login page clears cookies and fails;
on success the renewal flow runs and `True` is returned. -/
def try_cookie_login (cfg : Config) (env : Env) (r : RunResults) :
    RunResults × List Event × Bool :=
  if pyTruthy cfg.cookie_value then
    if env.set_cookies_ok then
      if env.cookie_goto_ok then
        if env.on_login_page_after_cookie then
          (r, [Event.cookieAttempt, Event.setCookie,
               Event.navigate cfg.server_url, Event.clearCookies], false)
        else
          let p := perform_renewal cfg env r
          (p.1, Event.cookieAttempt :: Event.setCookie ::
                Event.navigate cfg.server_url ::
                Event.screenshot "cookie_success" :: p.2, true)
      else (r, [Event.cookieAttempt, Event.setCookie,
                Event.navigate cfg.server_url], false)
    else (r, [Event.cookieAttempt], false)
  else (r, [], false)

/-- Embedding of `HidenCloudLogin._try_password_login`: skipped when the
email/password pair is not truthy; otherwise the login page is visited,
the form filled, the challenge step run (never escalating), the form
submitted, the dashboard redirect awaited, the landing checked and the
target page visited; any step failure is caught with a
`password_failed` screenshot; on success the renewal flow runs. -/
def try_password_login (cfg : Config) (env : Env) (r : RunResults) :
    RunResults × List Event × Bool :=
  if pyTruthy cfg.email && pyTruthy cfg.password then
    if env.login_goto_ok then
      if env.fill_ok then
        let tr1 := Event.passwordAttempt :: Event.navigate cfg.login_url ::
                   Event.fillLoginForm :: handle_cloudflare_verification env
        if env.submit_ok then
          if env.dashboard_redirect_ok then
            if env.on_login_page_after_password then
              (r, tr1 ++ [Event.submitLogin, Event.screenshot "password_failed"], false)
            else
              if env.password_target_goto_ok then
                let p := perform_renewal cfg env r
                (p.1, tr1 ++ Event.submitLogin :: Event.navigate cfg.server_url ::
                      Event.screenshot "password_success" :: p.2, true)
              else
                (r, tr1 ++ [Event.submitLogin, Event.navigate cfg.server_url,
                     Event.screenshot "password_failed"], false)
          else
            (r, tr1 ++ [Event.submitLogin, Event.screenshot "password_failed"], false)
        else
          (r, tr1 ++ [Event.screenshot "password_failed"], false)
      else
        (r, [Event.passwordAttempt, Event.navigate cfg.login_url,
             Event.screenshot "password_failed"], false)
    else
      (r, [Event.passwordAttempt, Event.navigate cfg.login_url,
           Event.screenshot "password_failed"], false)
  else (r, [], false)

/-- Embedding of `HidenCloudLogin.login`: cookie strategy first, password
strategy only when the cookie strategy returned `False`. -/
def login (cfg : Config) (env : Env) (r : RunResults) :
    RunResults × List Event × Bool :=
  let c := try_cookie_login cfg env r
  if c.2.2 then (c.1, c.2.1, true)
  else
    let p := try_password_login cfg env c.1
    (p.1, c.2.1 ++ p.2.1, p.2.2)

/-- Configuration as assembled by `__init__` from the environment
variables (the login URL is the constant of the source). -/
def mkConfig (cookie_env account_env : Option String) (server_url : String) : Config :=
  let c := load_credentials cookie_env account_env
  { cookie_value := c.1, email := c.2.1, password := c.2.2
    server_url := server_url
    login_url := "https://dash.hidencloud.com/auth/login" }

/-- Embedding of `main()`'s exit code: a `ValueError` from the
constructor (invalid configuration) reaches the outer `except` and exits
1; otherwise the exit code is 0 exactly when `login` returned `True`
(the report generation cannot change it). -/
def main_exit (cookie_env account_env : Option String) (server_url : String)
    (env : Env) : Nat :=
  let cfg := mkConfig cookie_env account_env server_url
  if validate_config cfg.cookie_value cfg.email cfg.password then
    if (login cfg env initResults).2.2 then 0 else 1
  else 1

/-- The status icon and text chosen by `generate_readme` (again with the
Python truthiness of `remaining_days`: `None` and `0` both drop the day
count). -/
def readme_status (r : RunResults) : String × String :=
  if r.renewal_status = "Success" then ("✅", "Success")
  else if r.renewal_status = "Unexpired" then
    match r.remaining_days with
    | some d => if d ≠ 0 then ("ℹ️", "Unexpired(" ++ toString d ++ "天)")
                else ("ℹ️", "Unexpired")
    | none => ("ℹ️", "Unexpired")
  else ("❌", "Failed")

/-- Condition under which `_try_cookie_login` returns `True`: a truthy
cookie, successful injection and navigation, and not landing on the
login page. -/
def cookie_auth_ok (cfg : Config) (env : Env) : Bool :=
  pyTruthy cfg.cookie_value && env.set_cookies_ok && env.cookie_goto_ok &&
  !env.on_login_page_after_cookie

/-- Condition under which `_try_password_login` returns `True`. -/
def password_auth_ok (cfg : Config) (env : Env) : Bool :=
  pyTruthy cfg.email && pyTruthy cfg.password && env.login_goto_ok &&
  env.fill_ok && env.submit_ok && env.dashboard_redirect_ok &&
  !env.on_login_page_after_password && env.password_target_goto_ok

/-- A run is authenticated when either strategy succeeds. -/
def authenticated (cfg : Config) (env : Env) : Bool :=
  cookie_auth_ok cfg env || password_auth_ok cfg env

/-- Events marking an invocation of the credential-login strategy. -/
def isCredentialLoginEvent : Event → Bool
  | Event.passwordAttempt => true
  | Event.fillLoginForm => true
  | Event.submitLogin => true
  | _ => false

/-- The sequence of values assigned to `renewal_status` during a trace. -/
def statusEvents (tr : List Event) : List String :=
  tr.filterMap (fun e => match e with | Event.setStatus s => some s | _ => none)

/-- A baseline environment in which every observation fails or is
absent. -/
def envBase : Env :=
  { set_cookies_ok := false, cookie_goto_ok := false
    on_login_page_after_cookie := false, login_goto_ok := false
    fill_ok := false, challenge := ChallengeOutcome.notVisible
    submit_ok := false, dashboard_redirect_ok := false
    on_login_page_after_password := false, password_target_goto_ok := false
    due_text_before := none, renew_visible := false, renew_enabled := false
    restriction_title_visible := false, restriction_message_visible := false
    restriction_text := none, confirmation_title_visible := false
    confirmation_message_visible := false, create_invoice_visible := false
    invoice_url_ok := false, invoice_success_visible := false
    invoice_text_visible := false, pay_visible := false
    pay_redirect_ok := false, detect := DetectOutcome.notDetected
    payment_target_goto_ok := false, due_text_after := none }

/-- A restriction body text whose day pattern matches with value 0. -/
def restrictionMsgZero : String :=
  "You can only renew your free service when there is less than 1 day left before it expires in 0 days."

/-- A restriction body text whose day pattern matches with value 3. -/
def restrictionMsgThree : String :=
  "You can only renew your free service when there is less than 1 day left before it expires in 3 days."

/-- Environment: cookie authentication succeeds, the Renew button is
visible but disabled, so the renewal phase records nothing. -/
def envAuthNoRenew : Env :=
  { envBase with set_cookies_ok := true, cookie_goto_ok := true, renew_visible := true }

/-- Environment: the payment redirect back to the dashboard is observed. -/
def envRedirectOk : Env :=
  { envBase with pay_redirect_ok := true }

/-- Environment: cookie injected and target visited, but the run lands on
the login page (stale token). -/
def envStaleCookie : Env :=
  { envBase with set_cookies_ok := true, cookie_goto_ok := true
                 on_login_page_after_cookie := true }

/-- Environment: restriction dialog visible with the zero-days text. -/
def envRestrictedZero : Env :=
  { envBase with restriction_title_visible := true
                 restriction_message_visible := true
                 restriction_text := some restrictionMsgZero }

/-- Environment: restriction dialog visible with the three-days text. -/
def envRestrictedThree : Env :=
  { envBase with restriction_title_visible := true
                 restriction_message_visible := true
                 restriction_text := some restrictionMsgThree }

/-- Environment: restriction dialog visible with a body text that does
not contain the day pattern at all. -/
def envRestrictedPlain : Env :=
  { envBase with restriction_title_visible := true
                 restriction_message_visible := true
                 restriction_text := some "You can only renew your free service when there is less than 1 day left before it expires" }

/-- Environment: credential login reaches the submit step. -/
def envCredSubmit : Env :=
  { envBase with login_goto_ok := true, fill_ok := true, submit_ok := true }

/-- A configuration with only a cookie credential. -/
def cfgCookieOnly : Config := mkConfig (some "tok") none "srv"

/-- A configuration with only an email/password credential. -/
def cfgCredOnly : Config := mkConfig none (some "user:pw") "srv"

/- ================================================================
   Theorems
   ================================================================ -/

@[simp] theorem statusEvents_append (a b : List Event) :
    statusEvents (a ++ b) = statusEvents a ++ statusEvents b := by
  simp [statusEvents]

@[simp] theorem statusEvents_nil : statusEvents ([] : List Event) = [] := rfl

@[simp] theorem statusEvents_navigate (u : String) (tr : List Event) :
    statusEvents (Event.navigate u :: tr) = statusEvents tr := rfl

@[simp] theorem statusEvents_setCookie (tr : List Event) :
    statusEvents (Event.setCookie :: tr) = statusEvents tr := rfl

@[simp] theorem statusEvents_clearCookies (tr : List Event) :
    statusEvents (Event.clearCookies :: tr) = statusEvents tr := rfl

@[simp] theorem statusEvents_cookieAttempt (tr : List Event) :
    statusEvents (Event.cookieAttempt :: tr) = statusEvents tr := rfl

@[simp] theorem statusEvents_passwordAttempt (tr : List Event) :
    statusEvents (Event.passwordAttempt :: tr) = statusEvents tr := rfl

@[simp] theorem statusEvents_fillLoginForm (tr : List Event) :
    statusEvents (Event.fillLoginForm :: tr) = statusEvents tr := rfl

@[simp] theorem statusEvents_challengeClick (tr : List Event) :
    statusEvents (Event.challengeClick :: tr) = statusEvents tr := rfl

@[simp] theorem statusEvents_challengeVerified (tr : List Event) :
    statusEvents (Event.challengeVerified :: tr) = statusEvents tr := rfl

@[simp] theorem statusEvents_submitLogin (tr : List Event) :
    statusEvents (Event.submitLogin :: tr) = statusEvents tr := rfl

@[simp] theorem statusEvents_clickRenew (tr : List Event) :
    statusEvents (Event.clickRenew :: tr) = statusEvents tr := rfl

@[simp] theorem statusEvents_clickCreateInvoice (tr : List Event) :
    statusEvents (Event.clickCreateInvoice :: tr) = statusEvents tr := rfl

@[simp] theorem statusEvents_clickPay (tr : List Event) :
    statusEvents (Event.clickPay :: tr) = statusEvents tr := rfl

@[simp] theorem statusEvents_screenshot (t : String) (tr : List Event) :
    statusEvents (Event.screenshot t :: tr) = statusEvents tr := rfl

@[simp] theorem statusEvents_setStatus (s : String) (tr : List Event) :
    statusEvents (Event.setStatus s :: tr) = s :: statusEvents tr := rfl

theorem record_due_date_status (raw : Option String) (st : Stage) (r : RunResults) :
    (record_due_date raw st r).renewal_status = r.renewal_status := by
  unfold record_due_date
  cases raw <;> cases st <;> rfl

theorem try_cookie_login_ok (cfg : Config) (env : Env) (r : RunResults) :
    (try_cookie_login cfg env r).2.2 = cookie_auth_ok cfg env := by
  unfold try_cookie_login cookie_auth_ok
  cases h0 : pyTruthy cfg.cookie_value <;>
    cases h1 : env.set_cookies_ok <;>
      cases h2 : env.cookie_goto_ok <;>
        cases h3 : env.on_login_page_after_cookie <;> simp

theorem try_password_login_ok (cfg : Config) (env : Env) (r : RunResults) :
    (try_password_login cfg env r).2.2 = password_auth_ok cfg env := by
  unfold try_password_login password_auth_ok
  cases h0 : (pyTruthy cfg.email && pyTruthy cfg.password) <;>
    cases h1 : env.login_goto_ok <;>
      cases h2 : env.fill_ok <;>
        cases h3 : env.submit_ok <;>
          cases h4 : env.dashboard_redirect_ok <;>
            cases h5 : env.on_login_page_after_password <;>
              cases h6 : env.password_target_goto_ok <;>
                simp [h0, Bool.and_assoc]

theorem login_ok (cfg : Config) (env : Env) (r : RunResults) :
    (login cfg env r).2.2 = authenticated cfg env := by
  unfold login authenticated
  cases h : cookie_auth_ok cfg env <;>
    simp [try_cookie_login_ok, try_password_login_ok, h]

/-- C1 (counterexample): an authenticated run whose renewal phase
records nothing (Renew button visible but disabled) still exits 0,
with `renewal_status` left at `'Unknown'` — contradicting the claim
that every such run exits non-zero. -/
theorem C1_counterexample :
    main_exit (some "tok") none "srv" envAuthNoRenew = 0 ∧
    (login cfgCookieOnly envAuthNoRenew initResults).2.2 = true ∧
    (login cfgCookieOnly envAuthNoRenew initResults).1.renewal_status = "Unknown" := by
  refine ⟨by decide, by decide, by decide⟩

/-- C1 (amended): the exit code is 0 exactly when the configuration is
valid and the run authenticates (one of the two login strategies reaches
the target page); the recorded `renewal_status` has no influence on the
exit code — in particular an authenticated run whose status stays
`Unknown` still exits 0. -/
theorem C1_exit_code (cookie_env account_env : Option String)
    (server_url : String) (env : Env) :
    main_exit cookie_env account_env server_url env = 0 ↔
      (let cfg := mkConfig cookie_env account_env server_url
       validate_config cfg.cookie_value cfg.email cfg.password = true ∧
         authenticated cfg env = true) := by
  unfold main_exit
  cases hv : validate_config (mkConfig cookie_env account_env server_url).cookie_value
      (mkConfig cookie_env account_env server_url).email
      (mkConfig cookie_env account_env server_url).password
  · simp [hv]
  · cases ha : authenticated (mkConfig cookie_env account_env server_url) env <;>
      simp [hv, ha, login_ok]

theorem convert_three_parts (s d m y : String) (h : pySplitWs s = [d, m, y]) :
    convert_date_format s = y ++ "-" ++ monthNum m ++ "-" ++ zfill d 2 := by
  unfold convert_date_format
  rw [h]

theorem convert_not_three (s : String) (h : (pySplitWs s).length ≠ 3) :
    convert_date_format s = s := by
  unfold convert_date_format
  rcases hp : pySplitWs s with _ | ⟨a, _ | ⟨b, _ | ⟨c, _ | _⟩⟩⟩ <;> simp_all

/-- C2: date conversion is a pure total Lean function mirroring
`_convert_date_format`; the two spec examples hold; an input of exactly
three whitespace-separated tokens becomes `year-month-day` with the day
`zfill`-padded to two digits and the month mapped through `month_map`;
a month absent from the map yields `"00"`; any other input is returned
unchanged. -/
theorem C2_date_conversion :
    convert_date_format "24 Sep 2025" = "2025-09-24" ∧
    convert_date_format "1 Jan 2026" = "2026-01-01" ∧
    (∀ s d m y, pySplitWs s = [d, m, y] →
        convert_date_format s = y ++ "-" ++ monthNum m ++ "-" ++ zfill d 2) ∧
    (∀ m, month_map m = none → monthNum m = "00") ∧
    (∀ s, (pySplitWs s).length ≠ 3 → convert_date_format s = s) := by
  refine ⟨by decide, by decide, ?_, ?_, ?_⟩
  · intro s d m y h
    exact convert_three_parts s d m y h
  · intro m h
    unfold monthNum
    rw [h]
    rfl
  · intro s h
    exact convert_not_three s h

/-- Witness for C2 at concrete inputs. -/
theorem C2_date_conversion_witness :
    (pySplitWs "3 Foo 2025" = ["3", "Foo", "2025"] ∧
       convert_date_format "3 Foo 2025" =
         "2025" ++ "-" ++ monthNum "Foo" ++ "-" ++ zfill "3" 2) ∧
    (month_map "Foo" = none ∧ monthNum "Foo" = "00") ∧
    ((pySplitWs "2025-09-24").length ≠ 3 ∧
       convert_date_format "2025-09-24" = "2025-09-24") := by
  refine ⟨⟨by decide, C2_date_conversion.2.2.1 "3 Foo 2025" "3" "Foo" "2025" (by decide)⟩,
          ⟨by decide, C2_date_conversion.2.2.2.1 "Foo" (by decide)⟩,
          ⟨by decide, C2_date_conversion.2.2.2.2 "2025-09-24" (by decide)⟩⟩

/-- C3: whenever the redirect back to the dashboard is observed within
its bounded wait, `renewal_status` is set to `Success`, and the recorded
accumulator does not depend on the payment-success text detection
outcome (detected, absent, or detection raising). -/
theorem C3_redirect_sets_success (cfg : Config) (env : Env) (r : RunResults)
    (h : env.pay_redirect_ok = true) :
    (check_payment_result cfg env r).1.renewal_status = "Success" ∧
    (∀ d, (check_payment_result cfg { env with detect := d } r).1 =
          (check_payment_result cfg env r).1) := by
  constructor
  · by_cases hg : env.payment_target_goto_ok = true
    · simp [check_payment_result, h, hg, record_due_date_status]
    · simp [check_payment_result, h, hg]
  · intro d
    by_cases hg : env.payment_target_goto_ok = true <;>
      simp [check_payment_result, h, hg]

/-- Witness for C3. -/
theorem C3_redirect_sets_success_witness :
    envRedirectOk.pay_redirect_ok = true ∧
    (check_payment_result cfgCookieOnly envRedirectOk initResults).1.renewal_status
      = "Success" :=
  ⟨by decide,
   (C3_redirect_sets_success cfgCookieOnly envRedirectOk initResults (by decide)).1⟩

/-- C4: when the invoice-ready signals are not all detected, or the
redirect back to the dashboard is not observed within its bound, the
transaction leaves the accumulator exactly as it was (in particular the
status is never overwritten with `Success`) and a diagnostic screenshot
is captured. -/
theorem C4_step_timeout (cfg : Config) (env : Env) (r : RunResults) :
    ((env.invoice_url_ok && env.invoice_success_visible &&
      env.invoice_text_visible && env.pay_visible) = false →
       (handle_invoice_and_payment cfg env r).1 = r ∧
       Event.screenshot "invoice_page_error" ∈
         (handle_invoice_and_payment cfg env r).2) ∧
    (env.pay_redirect_ok = false →
       (check_payment_result cfg env r).1 = r ∧
       Event.screenshot "payment_result_unknown" ∈
         (check_payment_result cfg env r).2) := by
  constructor
  · intro h
    simp [handle_invoice_and_payment, h]
  · intro h
    simp [check_payment_result, h]

/-- Witness for C4. -/
theorem C4_step_timeout_witness :
    ((envBase.invoice_url_ok && envBase.invoice_success_visible &&
      envBase.invoice_text_visible && envBase.pay_visible) = false ∧
     (handle_invoice_and_payment cfgCookieOnly envBase initResults).1 = initResults ∧
     Event.screenshot "invoice_page_error" ∈
       (handle_invoice_and_payment cfgCookieOnly envBase initResults).2) ∧
    (envBase.pay_redirect_ok = false ∧
     (check_payment_result cfgCookieOnly envBase initResults).1 = initResults ∧
     Event.screenshot "payment_result_unknown" ∈
       (check_payment_result cfgCookieOnly envBase initResults).2) := by
  refine ⟨⟨by decide,
           ((C4_step_timeout cfgCookieOnly envBase initResults).1 (by decide)).1,
           ((C4_step_timeout cfgCookieOnly envBase initResults).1 (by decide)).2⟩,
          ⟨by decide,
           ((C4_step_timeout cfgCookieOnly envBase initResults).2 (by decide)).1,
           ((C4_step_timeout cfgCookieOnly envBase initResults).2 (by decide)).2⟩⟩

theorem no_cred_cpr (cfg : Config) (env : Env) (r : RunResults) :
    ∀ e ∈ (check_payment_result cfg env r).2, isCredentialLoginEvent e = false := by
  by_cases h1 : env.pay_redirect_ok = true <;>
    by_cases h2 : env.payment_target_goto_ok = true <;>
      rcases h3 : env.detect <;>
        simp [check_payment_result, h1, h2, h3, detect_payment_success,
              isCredentialLoginEvent]

theorem no_cred_hip (cfg : Config) (env : Env) (r : RunResults) :
    ∀ e ∈ (handle_invoice_and_payment cfg env r).2,
      isCredentialLoginEvent e = false := by
  intro e he
  by_cases h : (env.invoice_url_ok && env.invoice_success_visible &&
      env.invoice_text_visible && env.pay_visible) = true
  · simp [handle_invoice_and_payment, h] at he
    rcases he with rfl | he
    · rfl
    · exact no_cred_cpr cfg env r e he
  · simp [handle_invoice_and_payment, h] at he
    subst he
    rfl

theorem no_cred_crr (env : Env) (r : RunResults) :
    ∀ e ∈ (check_renewal_restriction env r).2.1,
      isCredentialLoginEvent e = false := by
  by_cases h : (env.restriction_title_visible &&
      env.restriction_message_visible) = true <;>
    simp [check_renewal_restriction, h, isCredentialLoginEvent]

theorem no_cred_crc (cfg : Config) (env : Env) (r : RunResults) :
    ∀ e ∈ (check_renewal_confirmation cfg env r).2.1,
      isCredentialLoginEvent e = false := by
  intro e he
  by_cases h1 : (env.confirmation_title_visible &&
      env.confirmation_message_visible) = true
  · by_cases h2 : env.create_invoice_visible = true
    · simp [check_renewal_confirmation, h1, h2] at he
      rcases he with rfl | he
      · rfl
      · exact no_cred_hip cfg env r e he
    · simp [check_renewal_confirmation, h1, h2] at he
      subst he
      rfl
  · simp [check_renewal_confirmation, h1] at he

theorem no_cred_hrd (cfg : Config) (env : Env) (r : RunResults) :
    ∀ e ∈ (handle_renewal_dialog cfg env r).2,
      isCredentialLoginEvent e = false := by
  intro e he
  by_cases h1 : (check_renewal_restriction env r).2.2 = true
  · simp [handle_renewal_dialog, h1] at he
    exact no_cred_crr env r e he
  · by_cases h2 : (check_renewal_confirmation cfg env
        (check_renewal_restriction env r).1).2.2 = true
    · simp [handle_renewal_dialog, h1, h2] at he
      rcases he with he | he
      · exact no_cred_crr env r e he
      · exact no_cred_crc cfg env ((check_renewal_restriction env r).1) e he
    · simp [handle_renewal_dialog, h1, h2] at he
      rcases he with he | he | rfl
      · exact no_cred_crr env r e he
      · exact no_cred_crc cfg env ((check_renewal_restriction env r).1) e he
      · rfl

theorem no_cred_pr (cfg : Config) (env : Env) (r : RunResults) :
    ∀ e ∈ (perform_renewal cfg env r).2, isCredentialLoginEvent e = false := by
  intro e he
  by_cases h1 : env.renew_visible = true
  · by_cases h2 : env.renew_enabled = true
    · simp [perform_renewal, h1, h2] at he
      rcases he with rfl | he
      · rfl
      · exact no_cred_hrd cfg env
          (record_due_date env.due_text_before Stage.before r) e he
    · simp [perform_renewal, h1, h2] at he
  · simp [perform_renewal, h1] at he
    subst he
    rfl

theorem no_cred_cookie (cfg : Config) (env : Env) (r : RunResults) :
    ∀ e ∈ (try_cookie_login cfg env r).2.1,
      isCredentialLoginEvent e = false := by
  intro e he
  by_cases h0 : pyTruthy cfg.cookie_value = true
  · by_cases h1 : env.set_cookies_ok = true
    · by_cases h2 : env.cookie_goto_ok = true
      · by_cases h3 : env.on_login_page_after_cookie = true
        · simp [try_cookie_login, h0, h1, h2, h3] at he
          rcases he with rfl | rfl | rfl | rfl <;> rfl
        · simp [try_cookie_login, h0, h1, h2, h3] at he
          rcases he with rfl | rfl | rfl | rfl | he
          · rfl
          · rfl
          · rfl
          · rfl
          · exact no_cred_pr cfg env r e he
      · simp [try_cookie_login, h0, h1, h2] at he
        rcases he with rfl | rfl | rfl <;> rfl
    · simp [try_cookie_login, h0, h1] at he
      subst he
      rfl
  · simp [try_cookie_login, h0] at he

/-- C5: when a cached-session token is present the cookie strategy is
attempted first (the run trace begins with the cookie-attempt marker)
regardless of whether credentials are also present, and on every run
where cookie authentication succeeds no credential-login event
(password attempt, form fill, form submit) ever occurs. -/
theorem C5_cookie_first (cfg : Config) (env : Env) (r : RunResults)
    (hc : pyTruthy cfg.cookie_value = true) :
    ((login cfg env r).2.1).head? = some Event.cookieAttempt ∧
    (cookie_auth_ok cfg env = true →
       ∀ e ∈ (login cfg env r).2.1, isCredentialLoginEvent e = false) := by
  constructor
  · by_cases h1 : env.set_cookies_ok = true <;>
      by_cases h2 : env.cookie_goto_ok = true <;>
        by_cases h3 : env.on_login_page_after_cookie = true <;>
          simp [login, try_cookie_login, hc, h1, h2, h3]
  · intro hok e he
    have h2 : (try_cookie_login cfg env r).2.2 = true := by
      rw [try_cookie_login_ok]
      exact hok
    have htr : (login cfg env r).2.1 = (try_cookie_login cfg env r).2.1 := by
      simp [login, h2]
    rw [htr] at he
    exact no_cred_cookie cfg env r e he

/-- Witness for C5. -/
theorem C5_cookie_first_witness :
    pyTruthy cfgCookieOnly.cookie_value = true ∧
    ((login cfgCookieOnly envAuthNoRenew initResults).2.1).head? =
      some Event.cookieAttempt ∧
    cookie_auth_ok cfgCookieOnly envAuthNoRenew = true ∧
    (∀ e ∈ (login cfgCookieOnly envAuthNoRenew initResults).2.1,
       isCredentialLoginEvent e = false) := by
  refine ⟨by decide,
          (C5_cookie_first cfgCookieOnly envAuthNoRenew initResults (by decide)).1,
          by decide,
          (C5_cookie_first cfgCookieOnly envAuthNoRenew initResults (by decide)).2
            (by decide)⟩

/-- C6: a present but stale cookie (the target visit lands on the login
page) with no usable credential pair makes session establishment fail
without any navigation to the login page and without filling the login
form. -/
theorem C6_stale_cookie_no_creds (cfg : Config) (env : Env) (r : RunResults)
    (hc : pyTruthy cfg.cookie_value = true)
    (hset : env.set_cookies_ok = true) (hgoto : env.cookie_goto_ok = true)
    (hstale : env.on_login_page_after_cookie = true)
    (hnocred : (pyTruthy cfg.email && pyTruthy cfg.password) = false)
    (hne : cfg.server_url ≠ cfg.login_url) :
    (login cfg env r).2.2 = false ∧
    Event.navigate cfg.login_url ∉ (login cfg env r).2.1 ∧
    Event.fillLoginForm ∉ (login cfg env r).2.1 := by
  have htrace : (login cfg env r).2.1 =
      [Event.cookieAttempt, Event.setCookie, Event.navigate cfg.server_url,
       Event.clearCookies] := by
    simp [login, try_cookie_login, try_password_login, hc, hset, hgoto,
          hstale, hnocred]
  refine ⟨?_, ?_, ?_⟩
  · rw [login_ok]
    simp [authenticated, cookie_auth_ok, password_auth_ok, hstale, hnocred]
  · rw [htrace]
    simp
    exact fun h => hne h.symm
  · rw [htrace]
    simp

/-- Witness for C6. -/
theorem C6_stale_cookie_no_creds_witness :
    (login cfgCookieOnly envStaleCookie initResults).2.2 = false ∧
    Event.navigate cfgCookieOnly.login_url ∉
      (login cfgCookieOnly envStaleCookie initResults).2.1 ∧
    Event.fillLoginForm ∉ (login cfgCookieOnly envStaleCookie initResults).2.1 :=
  C6_stale_cookie_no_creds cfgCookieOnly envStaleCookie initResults
    (by decide) (by decide) (by decide) (by decide) (by decide) (by decide)

/-- C7 (counterexample): with the restriction dialog visible and a body
text matching the numeric pattern with N = 0, the code leaves
`remaining_days` at `None` (Python `if remaining_days:` treats 0 as
falsy), refuting the claim that `remaining_days` is set to N whenever
the pattern matches; the classification itself still yields
`Unexpired`. -/
theorem C7_counterexample :
    extract_remaining_days restrictionMsgZero = some 0 ∧
    (check_renewal_restriction envRestrictedZero initResults).1.remaining_days
      = none ∧
    (check_renewal_restriction envRestrictedZero initResults).1.renewal_status
      = "Unexpired" := by
  refine ⟨by decide, by decide, by decide⟩

/-- C7 (amended): when the restriction title and body are both visible,
the status is set to `Unexpired` and the check reports a match;
`remaining_days` is set to N whenever the body matches the numeric
pattern with N nonzero; a match of 0 is discarded exactly like a missing
match (Python truthiness), leaving `remaining_days` unchanged, without
failing the classification; the three-days example extracts 3. -/
theorem C7_restriction (env : Env) (r : RunResults)
    (ht : env.restriction_title_visible = true)
    (hm : env.restriction_message_visible = true) :
    (check_renewal_restriction env r).1.renewal_status = "Unexpired" ∧
    (check_renewal_restriction env r).2.2 = true ∧
    (∀ msg n, env.restriction_text = some msg →
        extract_remaining_days msg = some n → n ≠ 0 →
        (check_renewal_restriction env r).1.remaining_days = some n) ∧
    (∀ msg, env.restriction_text = some msg →
        extract_remaining_days msg = some 0 →
        (check_renewal_restriction env r).1.remaining_days = r.remaining_days) ∧
    (∀ msg, env.restriction_text = some msg →
        extract_remaining_days msg = none →
        (check_renewal_restriction env r).1.remaining_days = r.remaining_days) ∧
    extract_remaining_days restrictionMsgThree = some 3 := by
  refine ⟨?_, ?_, ?_, ?_, ?_, by decide⟩
  · simp [check_renewal_restriction, ht, hm]
  · simp [check_renewal_restriction, ht, hm]
  · intro msg n hmsg hx hn
    simp [check_renewal_restriction, ht, hm, hmsg, hx, hn]
  · intro msg hmsg hx
    simp [check_renewal_restriction, ht, hm, hmsg, hx]
  · intro msg hmsg hx
    simp [check_renewal_restriction, ht, hm, hmsg, hx]

/-- Witness for C7 (amended). -/
theorem C7_restriction_witness :
    ((check_renewal_restriction envRestrictedThree initResults).1.renewal_status
       = "Unexpired" ∧
     (check_renewal_restriction envRestrictedThree initResults).1.remaining_days
       = some 3) ∧
    (check_renewal_restriction envRestrictedPlain initResults).1.remaining_days
      = none := by
  refine ⟨⟨(C7_restriction envRestrictedThree initResults (by decide) (by decide)).1,
           (C7_restriction envRestrictedThree initResults (by decide)
             (by decide)).2.2.1 restrictionMsgThree 3 rfl (by decide) (by decide)⟩,
          ?_⟩
  exact ((C7_restriction envRestrictedPlain initResults (by decide)
    (by decide)).2.2.2.2.1 _ rfl (by decide)).trans rfl

/-- C8 (counterexample): a pair string whose secret contains a colon is
split into three fields by `split(':')`, the tuple unpacking raises
`ValueError`, and both login and secret are discarded — refuting the
claim that the string is split on the first colon with the secret
preserved; with no cookie present, startup then aborts. -/
theorem C8_counterexample :
    pySplitOn "user:pa:ss" ':' = ["user", "pa", "ss"] ∧
    load_credentials none (some "user:pa:ss") = (none, none, none) ∧
    validate_config none none none = false := by
  refine ⟨by decide, by decide, by decide⟩

/-- C8 (amended): the pair string is split on every colon and must yield
exactly two fields (so a secret containing a colon makes the string
malformed and discarded, with login and secret left unset, rather than
fatal); startup aborts exactly when neither a cookie token nor a truthy
login/secret pair remains. -/
theorem C8_credential_parsing (cookie_env : Option String) (a : String) :
    (∀ e p, pySplitOn a ':' = [e, p] →
        load_credentials cookie_env (some a) = (cookie_env, some e, some p)) ∧
    ((pySplitOn a ':').length ≠ 2 →
        load_credentials cookie_env (some a) = (cookie_env, none, none)) ∧
    (∀ c e p : Option String,
        validate_config c e p = false ↔
          pyTruthy c = false ∧ (pyTruthy e = false ∨ pyTruthy p = false)) := by
  refine ⟨?_, ?_, ?_⟩
  · intro e p h
    by_cases ha : pyTruthy (some a) = true
    · simp [load_credentials, ha, h]
    · exfalso
      have ha0 : a = "" := by
        simp [pyTruthy] at ha
        exact (String.isEmpty_iff a).mp ha
      rw [ha0] at h
      simp [pySplitOn, splitCharsAux] at h
  · intro h
    by_cases ha : pyTruthy (some a) = true
    · rcases hp : pySplitOn a ':' with _ | ⟨x, _ | ⟨y, _ | _⟩⟩ <;>
        simp_all [load_credentials, ha, hp]
    · simp [load_credentials, ha]
  · intro c e p
    cases hc : pyTruthy c <;> cases he : pyTruthy e <;>
      cases hp : pyTruthy p <;> simp [validate_config, hc, he, hp]

/-- Witness for C8 (amended). -/
theorem C8_credential_parsing_witness :
    (pySplitOn "user:pw" ':' = ["user", "pw"] ∧
     load_credentials none (some "user:pw") = (none, some "user", some "pw")) ∧
    ((pySplitOn "nocolon" ':').length ≠ 2 ∧
     load_credentials none (some "nocolon") = (none, none, none)) ∧
    (validate_config none (some "user") none = false ↔
       pyTruthy (none : Option String) = false ∧
         (pyTruthy (some "user") = false ∨
          pyTruthy (none : Option String) = false)) := by
  refine ⟨⟨by decide, (C8_credential_parsing none "user:pw").1 "user" "pw" (by decide)⟩,
          ⟨by decide, (C8_credential_parsing none "nocolon").2.1 (by decide)⟩,
          (C8_credential_parsing none "user:pw").2.2 none (some "user") none⟩

/-- C9: the challenge-widget step never blocks a credential login: for
every challenge outcome the step returns normally and the login form is
submitted anyway, and the attempt's result does not depend on the
challenge outcome. -/
theorem C9_challenge_non_blocking (cfg : Config) (env : Env) (r : RunResults)
    (hcred : (pyTruthy cfg.email && pyTruthy cfg.password) = true)
    (hgoto : env.login_goto_ok = true) (hfill : env.fill_ok = true)
    (hsubmit : env.submit_ok = true) :
    Event.submitLogin ∈ (try_password_login cfg env r).2.1 ∧
    (∀ c, (try_password_login cfg { env with challenge := c } r).2.2 =
          (try_password_login cfg env r).2.2) := by
  constructor
  · by_cases h4 : env.dashboard_redirect_ok = true <;>
      by_cases h5 : env.on_login_page_after_password = true <;>
        by_cases h6 : env.password_target_goto_ok = true <;>
          simp [try_password_login, hcred, hgoto, hfill, hsubmit, h4, h5, h6]
  · intro c
    rw [try_password_login_ok, try_password_login_ok]
    simp [password_auth_ok]

/-- Witness for C9. -/
theorem C9_challenge_non_blocking_witness :
    (pyTruthy cfgCredOnly.email && pyTruthy cfgCredOnly.password) = true ∧
    Event.submitLogin ∈
      (try_password_login cfgCredOnly envCredSubmit initResults).2.1 ∧
    (try_password_login cfgCredOnly
        { envCredSubmit with challenge := ChallengeOutcome.clickedNotVerified }
        initResults).2.2 =
      (try_password_login cfgCredOnly envCredSubmit initResults).2.2 := by
  refine ⟨by decide,
          (C9_challenge_non_blocking cfgCredOnly envCredSubmit initResults
            (by decide) (by decide) (by decide) (by decide)).1,
          (C9_challenge_non_blocking cfgCredOnly envCredSubmit initResults
            (by decide) (by decide) (by decide) (by decide)).2
            ChallengeOutcome.clickedNotVerified⟩

@[simp] theorem statusEvents_hcv (env : Env) :
    statusEvents (handle_cloudflare_verification env) = [] := by
  rcases h : env.challenge <;>
    simp [handle_cloudflare_verification, h]

theorem crr_cases (env : Env) (r : RunResults) :
    ((check_renewal_restriction env r).2.2 = false ∧
     (check_renewal_restriction env r).1 = r ∧
     (check_renewal_restriction env r).2.1 = []) ∨
    ((check_renewal_restriction env r).2.2 = true ∧
     (check_renewal_restriction env r).1.renewal_status = "Unexpired" ∧
     statusEvents (check_renewal_restriction env r).2.1 = ["Unexpired"]) := by
  by_cases h : (env.restriction_title_visible &&
      env.restriction_message_visible) = true
  · right
    refine ⟨?_, ?_, ?_⟩ <;> simp [check_renewal_restriction, h, statusEvents]
  · left
    refine ⟨?_, ?_, ?_⟩ <;> simp [check_renewal_restriction, h]

theorem cpr_cases (cfg : Config) (env : Env) (r : RunResults) :
    ((check_payment_result cfg env r).1 = r ∧
     statusEvents (check_payment_result cfg env r).2 = []) ∨
    ((check_payment_result cfg env r).1.renewal_status = "Success" ∧
     statusEvents (check_payment_result cfg env r).2 = ["Success"]) := by
  by_cases h1 : env.pay_redirect_ok = true
  · right
    constructor
    · by_cases h2 : env.payment_target_goto_ok = true <;>
        simp [check_payment_result, h1, h2, record_due_date_status]
    · by_cases h2 : env.payment_target_goto_ok = true <;>
        rcases h3 : env.detect <;>
          simp [check_payment_result, h1, h2, h3, detect_payment_success,
                statusEvents]
  · left
    constructor <;> simp [check_payment_result, h1, statusEvents]

theorem hip_cases (cfg : Config) (env : Env) (r : RunResults) :
    ((handle_invoice_and_payment cfg env r).1 = r ∧
     statusEvents (handle_invoice_and_payment cfg env r).2 = []) ∨
    ((handle_invoice_and_payment cfg env r).1.renewal_status = "Success" ∧
     statusEvents (handle_invoice_and_payment cfg env r).2 = ["Success"]) := by
  by_cases h : (env.invoice_url_ok && env.invoice_success_visible &&
      env.invoice_text_visible && env.pay_visible) = true
  · rcases cpr_cases cfg env r with ⟨h1, h2⟩ | ⟨h1, h2⟩
    · left
      constructor
      · simp [handle_invoice_and_payment, h, h1]
      · simp [handle_invoice_and_payment, h, h2]
    · right
      constructor
      · simp [handle_invoice_and_payment, h, h1]
      · simp [handle_invoice_and_payment, h, h2]
  · left
    constructor <;> simp [handle_invoice_and_payment, h]

theorem crc_cases (cfg : Config) (env : Env) (r : RunResults) :
    ((check_renewal_confirmation cfg env r).1 = r ∧
     statusEvents (check_renewal_confirmation cfg env r).2.1 = []) ∨
    ((check_renewal_confirmation cfg env r).1.renewal_status = "Success" ∧
     statusEvents (check_renewal_confirmation cfg env r).2.1 = ["Success"]) := by
  by_cases h1 : (env.confirmation_title_visible &&
      env.confirmation_message_visible) = true
  · by_cases h2 : env.create_invoice_visible = true
    · rcases hip_cases cfg env r with ⟨ha, hb⟩ | ⟨ha, hb⟩
      · left
        constructor
        · simp [check_renewal_confirmation, h1, h2, ha]
        · simp [check_renewal_confirmation, h1, h2, hb]
      · right
        constructor
        · simp [check_renewal_confirmation, h1, h2, ha]
        · simp [check_renewal_confirmation, h1, h2, hb]
    · left
      constructor <;> simp [check_renewal_confirmation, h1, h2]
  · left
    constructor <;> simp [check_renewal_confirmation, h1]

theorem hrd_cases (cfg : Config) (env : Env) (r : RunResults) :
    ((handle_renewal_dialog cfg env r).1 = r ∧
     statusEvents (handle_renewal_dialog cfg env r).2 = []) ∨
    ((handle_renewal_dialog cfg env r).1.renewal_status = "Unexpired" ∧
     statusEvents (handle_renewal_dialog cfg env r).2 = ["Unexpired"]) ∨
    ((handle_renewal_dialog cfg env r).1.renewal_status = "Success" ∧
     statusEvents (handle_renewal_dialog cfg env r).2 = ["Success"]) := by
  rcases crr_cases env r with ⟨hf, hr, htr⟩ | ⟨hf, hs, htr⟩
  · rcases crc_cases cfg env ((check_renewal_restriction env r).1)
        with ⟨ha, hb⟩ | ⟨ha, hb⟩
    · rw [hr] at ha hb
      left
      by_cases h2 : (check_renewal_confirmation cfg env r).2.2 = true
      all_goals constructor
      all_goals simp [handle_renewal_dialog, hf, hr, htr, h2, ha, hb]
    · rw [hr] at ha hb
      right; right
      by_cases h2 : (check_renewal_confirmation cfg env r).2.2 = true
      all_goals constructor
      all_goals simp [handle_renewal_dialog, hf, hr, htr, h2, ha, hb]
  · right; left
    constructor <;> simp [handle_renewal_dialog, hf, hs, htr]

theorem pr_cases (cfg : Config) (env : Env) (r : RunResults) :
    ((perform_renewal cfg env r).1.renewal_status = r.renewal_status ∧
     statusEvents (perform_renewal cfg env r).2 = []) ∨
    ((perform_renewal cfg env r).1.renewal_status = "Unexpired" ∧
     statusEvents (perform_renewal cfg env r).2 = ["Unexpired"]) ∨
    ((perform_renewal cfg env r).1.renewal_status = "Success" ∧
     statusEvents (perform_renewal cfg env r).2 = ["Success"]) := by
  by_cases h1 : env.renew_visible = true
  · by_cases h2 : env.renew_enabled = true
    · rcases hrd_cases cfg env (record_due_date env.due_text_before Stage.before r)
          with ⟨ha, hb⟩ | ⟨ha, hb⟩ | ⟨ha, hb⟩
      · left
        constructor
        · simp [perform_renewal, h1, h2, ha, record_due_date_status]
        · simp [perform_renewal, h1, h2, hb]
      · right; left
        constructor
        · simp [perform_renewal, h1, h2, ha]
        · simp [perform_renewal, h1, h2, hb]
      · right; right
        constructor
        · simp [perform_renewal, h1, h2, ha]
        · simp [perform_renewal, h1, h2, hb]
    · left
      constructor <;>
        simp [perform_renewal, h1, h2, record_due_date_status]
  · left
    constructor <;>
      simp [perform_renewal, h1, record_due_date_status]

theorem cookie_cases (cfg : Config) (env : Env) (r : RunResults) :
    ((try_cookie_login cfg env r).1.renewal_status = r.renewal_status ∧
     statusEvents (try_cookie_login cfg env r).2.1 = []) ∨
    ((try_cookie_login cfg env r).1.renewal_status = "Unexpired" ∧
     statusEvents (try_cookie_login cfg env r).2.1 = ["Unexpired"]) ∨
    ((try_cookie_login cfg env r).1.renewal_status = "Success" ∧
     statusEvents (try_cookie_login cfg env r).2.1 = ["Success"]) := by
  by_cases h0 : pyTruthy cfg.cookie_value = true
  · by_cases h1 : env.set_cookies_ok = true
    · by_cases h2 : env.cookie_goto_ok = true
      · by_cases h3 : env.on_login_page_after_cookie = true
        · left
          constructor <;> simp [try_cookie_login, h0, h1, h2, h3]
        · rcases pr_cases cfg env r with ⟨ha, hb⟩ | ⟨ha, hb⟩ | ⟨ha, hb⟩
          · left
            constructor
            · simp [try_cookie_login, h0, h1, h2, h3, ha]
            · simp [try_cookie_login, h0, h1, h2, h3, hb]
          · right; left
            constructor
            · simp [try_cookie_login, h0, h1, h2, h3, ha]
            · simp [try_cookie_login, h0, h1, h2, h3, hb]
          · right; right
            constructor
            · simp [try_cookie_login, h0, h1, h2, h3, ha]
            · simp [try_cookie_login, h0, h1, h2, h3, hb]
      · left
        constructor <;> simp [try_cookie_login, h0, h1, h2]
    · left
      constructor <;> simp [try_cookie_login, h0, h1]
  · left
    constructor <;> simp [try_cookie_login, h0]

theorem try_cookie_fail (cfg : Config) (env : Env) (r : RunResults)
    (h : (try_cookie_login cfg env r).2.2 = false) :
    (try_cookie_login cfg env r).1 = r ∧
    statusEvents (try_cookie_login cfg env r).2.1 = [] := by
  by_cases h0 : pyTruthy cfg.cookie_value = true
  · by_cases h1 : env.set_cookies_ok = true
    · by_cases h2 : env.cookie_goto_ok = true
      · by_cases h3 : env.on_login_page_after_cookie = true
        · constructor <;> simp [try_cookie_login, h0, h1, h2, h3]
        · exfalso
          rw [try_cookie_login_ok] at h
          simp [cookie_auth_ok, h0, h1, h2, h3] at h
      · constructor <;> simp [try_cookie_login, h0, h1, h2]
    · constructor <;> simp [try_cookie_login, h0, h1]
  · constructor <;> simp [try_cookie_login, h0]

theorem password_cases (cfg : Config) (env : Env) (r : RunResults) :
    ((try_password_login cfg env r).1.renewal_status = r.renewal_status ∧
     statusEvents (try_password_login cfg env r).2.1 = []) ∨
    ((try_password_login cfg env r).1.renewal_status = "Unexpired" ∧
     statusEvents (try_password_login cfg env r).2.1 = ["Unexpired"]) ∨
    ((try_password_login cfg env r).1.renewal_status = "Success" ∧
     statusEvents (try_password_login cfg env r).2.1 = ["Success"]) := by
  by_cases hc : (pyTruthy cfg.email && pyTruthy cfg.password) = true
  · by_cases h1 : env.login_goto_ok = true
    · by_cases h2 : env.fill_ok = true
      · by_cases h3 : env.submit_ok = true
        · by_cases h4 : env.dashboard_redirect_ok = true
          · by_cases h5 : env.on_login_page_after_password = true
            · left
              constructor <;> simp [try_password_login, hc, h1, h2, h3, h4, h5]
            · by_cases h6 : env.password_target_goto_ok = true
              · rcases pr_cases cfg env r with ⟨ha, hb⟩ | ⟨ha, hb⟩ | ⟨ha, hb⟩
                · left
                  constructor
                  · simp [try_password_login, hc, h1, h2, h3, h4, h5, h6, ha]
                  · simp [try_password_login, hc, h1, h2, h3, h4, h5, h6, hb]
                · right; left
                  constructor
                  · simp [try_password_login, hc, h1, h2, h3, h4, h5, h6, ha]
                  · simp [try_password_login, hc, h1, h2, h3, h4, h5, h6, hb]
                · right; right
                  constructor
                  · simp [try_password_login, hc, h1, h2, h3, h4, h5, h6, ha]
                  · simp [try_password_login, hc, h1, h2, h3, h4, h5, h6, hb]
              · left
                constructor <;> simp [try_password_login, hc, h1, h2, h3, h4,
                  h5, h6]
          · left
            constructor <;> simp [try_password_login, hc, h1, h2, h3, h4]
        · left
          constructor <;> simp [try_password_login, hc, h1, h2, h3]
      · left
        constructor <;> simp [try_password_login, hc, h1, h2]
    · left
      constructor <;> simp [try_password_login, hc, h1]
  · left
    constructor <;> simp [try_password_login, hc]

theorem login_cases (cfg : Config) (env : Env) (r : RunResults) :
    ((login cfg env r).1.renewal_status = r.renewal_status ∧
     statusEvents (login cfg env r).2.1 = []) ∨
    ((login cfg env r).1.renewal_status = "Unexpired" ∧
     statusEvents (login cfg env r).2.1 = ["Unexpired"]) ∨
    ((login cfg env r).1.renewal_status = "Success" ∧
     statusEvents (login cfg env r).2.1 = ["Success"]) := by
  by_cases h : (try_cookie_login cfg env r).2.2 = true
  · rcases cookie_cases cfg env r with ⟨ha, hb⟩ | ⟨ha, hb⟩ | ⟨ha, hb⟩
    · left
      constructor <;> simp [login, h, ha, hb]
    · right; left
      constructor <;> simp [login, h, ha, hb]
    · right; right
      constructor <;> simp [login, h, ha, hb]
  · have hfalse : (try_cookie_login cfg env r).2.2 = false := by
      revert h
      cases (try_cookie_login cfg env r).2.2 <;> simp
    obtain ⟨hr1, hs1⟩ := try_cookie_fail cfg env r hfalse
    rcases password_cases cfg env ((try_cookie_login cfg env r).1)
        with ⟨ha, hb⟩ | ⟨ha, hb⟩ | ⟨ha, hb⟩
    all_goals rw [hr1] at ha hb
    · left
      constructor
      · simp [login, h, hr1, ha]
      · simp [login, h, hr1, hs1, hb]
    · right; left
      constructor
      · simp [login, h, hr1, ha]
      · simp [login, h, hr1, hs1, hb]
    · right; right
      constructor
      · simp [login, h, hr1, ha]
      · simp [login, h, hr1, hs1, hb]

/-- C10: the accumulator invariant — `renewal_status` starts at
`Unknown`; the only values ever assigned during a run are `Unexpired`
and `Success`, with at most one assignment per run; the final status is
never `Failed` (it is one of `Unknown`, `Unexpired`, `Success`); and the
reporter renders any status other than `Success`/`Unexpired` with the
failure indicator, without storing `Failed` in the accumulator. -/
theorem C10_status_invariant (cfg : Config) (env : Env) :
    initResults.renewal_status = "Unknown" ∧
    (∀ s ∈ statusEvents (login cfg env initResults).2.1,
        s = "Unexpired" ∨ s = "Success") ∧
    (statusEvents (login cfg env initResults).2.1).length ≤ 1 ∧
    ((login cfg env initResults).1.renewal_status = "Unknown" ∨
     (login cfg env initResults).1.renewal_status = "Unexpired" ∨
     (login cfg env initResults).1.renewal_status = "Success") ∧
    (∀ r : RunResults, r.renewal_status ≠ "Success" →
        r.renewal_status ≠ "Unexpired" →
        readme_status r = ("❌", "Failed")) := by
  refine ⟨rfl, ?_, ?_, ?_, ?_⟩
  · rcases login_cases cfg env initResults with ⟨_, hb⟩ | ⟨_, hb⟩ | ⟨_, hb⟩ <;>
      simp [hb]
  · rcases login_cases cfg env initResults with ⟨_, hb⟩ | ⟨_, hb⟩ | ⟨_, hb⟩ <;>
      simp [hb]
  · rcases login_cases cfg env initResults with ⟨ha, _⟩ | ⟨ha, _⟩ | ⟨ha, _⟩
    · left
      exact ha.trans rfl
    · right; left
      exact ha
    · right; right
      exact ha
  · intro r h1 h2
    simp [readme_status, h1, h2]

/-- Witness for C10. -/
theorem C10_status_invariant_witness :
    (∀ s ∈ statusEvents (login cfgCookieOnly envAuthNoRenew initResults).2.1,
        s = "Unexpired" ∨ s = "Success") ∧
    readme_status initResults = ("❌", "Failed") := by
  refine ⟨(C10_status_invariant cfgCookieOnly envAuthNoRenew).2.1, ?_⟩
  exact (C10_status_invariant cfgCookieOnly envAuthNoRenew).2.2.2.2
    initResults (by decide) (by decide)

end HC
